import Mathlib

set_option maxHeartbeats 1000000

namespace Foodgram

/-! Shallow embedding of the foodgram backend (src/backend).  Rows of the
relational store are plain structures, the store itself is a structure of
lists, and each view/serializer operation cited by the claims is a Lean
function over that state. -/

/-- A measurement unit row of the catalog (recipes.models, class named Unit). -/
structure UnitRow where
  id : Nat
  name : String
deriving DecidableEq, Repr

/-- A tag row of the catalog (recipes.models.Tag). -/
structure TagRow where
  id : Nat
  name : String
  slug : String
deriving DecidableEq, Repr

/-- An ingredient row of the catalog (recipes.models.Ingredient); the
measurement_unit field holds the id of a UnitRow. -/
structure IngredientRow where
  id : Nat
  name : String
  measurement_unit : Nat
deriving DecidableEq, Repr

/-- A recipe row (recipes.models.Recipe). -/
structure RecipeRow where
  id : Nat
  author : Nat
  name : String
  text : String
  image : String
  cooking_time : Int
  short_code : String
deriving DecidableEq, Repr

/-- A composition row (recipes.models.RecipeIngredient), linking a recipe
to an ingredient with an amount. -/
structure RecipeIngredientRow where
  recipe : Nat
  ingredient : Nat
  amount : Int
deriving DecidableEq, Repr

/-- The relational store: one list per table.  The three binary relations
(favorites, shoppingCart, subscriptions) are lists of (user, object) pairs. -/
structure DB where
  units : List UnitRow
  tags : List TagRow
  ingredients : List IngredientRow
  recipes : List RecipeRow
  recipeTags : List (Nat × Nat)
  recipeIngredients : List RecipeIngredientRow
  favorites : List (Nat × Nat)
  shoppingCart : List (Nat × Nat)
  subscriptions : List (Nat × Nat)
deriving DecidableEq, Repr

/-! ### Relation toggles (api/views.py, RecipeViewSet._handle_user_recipe_action) -/

/-- Responses of the toggle endpoints: 201 created, 204 no content,
or 400 with an error message. -/
inductive ApiResponse where
  | created
  | noContent
  | badRequest (msg : String)
deriving DecidableEq, Repr

def errCartExists : String := "Рецепт уже в списке покупок"

def errCartNotExists : String := "Рецепт не в списке покупок"

def errFavExists : String := "Рецепт уже в избранном"

def errFavNotExists : String := "Рецепт не в избранном"

def errSelfSubscribe : String := "Нельзя подписаться на себя"

def errSubExists : String := "Вы уже подписаны на этого пользователя"

def errSubNotExists : String := "Вы не подписаны на этого пользователя"

/-- RecipeViewSet._handle_user_recipe_action: POST inserts the (user, recipe)
pair unless present (then 400 with error_exists); DELETE removes the matching
rows unless absent (then 400 with error_not_exists).  The relation list plays
the role of the model table (Favorite or ShoppingCart). -/
def handleUserRecipeAction (rel : List (Nat × Nat)) (user recipe : Nat)
    (isPost : Bool) (errorExists errorNotExists : String) :
    ApiResponse × List (Nat × Nat) :=
  if isPost then
    if (user, recipe) ∈ rel then
      (ApiResponse.badRequest errorExists, rel)
    else
      (ApiResponse.created, rel ++ [(user, recipe)])
  else
    if (user, recipe) ∈ rel then
      (ApiResponse.noContent, rel.filter (fun p => p ≠ (user, recipe)))
    else
      (ApiResponse.badRequest errorNotExists, rel)

/-- RecipeViewSet.shopping_cart, acting on the shoppingCart table of the store. -/
def shoppingCartAction (db : DB) (user recipe : Nat) (isPost : Bool) :
    ApiResponse × DB :=
  let r := handleUserRecipeAction db.shoppingCart user recipe isPost
    errCartExists errCartNotExists
  (r.1, { db with shoppingCart := r.2 })

/-- RecipeViewSet.favorite, acting on the favorites table of the store. -/
def favoriteAction (db : DB) (user recipe : Nat) (isPost : Bool) :
    ApiResponse × DB :=
  let r := handleUserRecipeAction db.favorites user recipe isPost
    errFavExists errFavNotExists
  (r.1, { db with favorites := r.2 })

/-- CustomUserViewSet.subscribe: rejects user = author first, then follows the
same membership logic as the recipe toggles on the subscriptions table. -/
def subscribe (subs : List (Nat × Nat)) (user author : Nat) (isPost : Bool) :
    ApiResponse × List (Nat × Nat) :=
  if user = author then
    (ApiResponse.badRequest errSelfSubscribe, subs)
  else if isPost then
    if (user, author) ∈ subs then
      (ApiResponse.badRequest errSubExists, subs)
    else
      (ApiResponse.created, subs ++ [(user, author)])
  else
    if (user, author) ∈ subs then
      (ApiResponse.noContent, subs.filter (fun p => p ≠ (user, author)))
    else
      (ApiResponse.badRequest errSubNotExists, subs)

/-! ### Viewer-relative annotations (api/views.py, RecipeViewSet.get_queryset) -/

/-- A recipe enriched with the two viewer-relative flags. -/
structure AnnotatedRecipe where
  recipe : RecipeRow
  is_favorited : Bool
  is_in_shopping_cart : Bool
deriving DecidableEq, Repr

/-- RecipeViewSet.get_queryset: an authenticated viewer (some u) gets
Exists-subquery flags; an anonymous viewer (none) gets the constant
Value(False) annotations. -/
def getQueryset (db : DB) (viewer : Option Nat) : List AnnotatedRecipe :=
  match viewer with
  | some u =>
      db.recipes.map (fun r =>
        { recipe := r
          is_favorited := decide ((u, r.id) ∈ db.favorites)
          is_in_shopping_cart := decide ((u, r.id) ∈ db.shoppingCart) })
  | none =>
      db.recipes.map (fun r =>
        { recipe := r, is_favorited := false, is_in_shopping_cart := false })

/-! ### Short links (recipes.models.Recipe.save, recipes.views.ShortLinkRedirectView) -/

/-- The collision loop of Recipe.save, made explicit: gen is the stream of
candidate codes produced by uuid4 truncation, consumed until one is not
already used.  none means the while-True loop is still running after the
whole modelled stream collided. -/
def pickCode (used : List String) : List String → Option String
  | [] => none
  | c :: rest => if c ∈ used then pickCode used rest else some c

/-- Recipe.save: when short_code is empty a fresh code is picked (looping on
collisions) before the row is inserted; otherwise the row is inserted as is. -/
def recipeSave (db : DB) (r : RecipeRow) (gen : List String) : Option DB :=
  if r.short_code = "" then
    match pickCode (db.recipes.map (fun rec => rec.short_code)) gen with
    | some c =>
        some { db with recipes := db.recipes ++ [{ r with short_code := c }] }
    | none => none
  else
    some { db with recipes := db.recipes ++ [r] }

/-- Recipe.objects.get(short_code=code): first recipe carrying the code. -/
def findByCode : List RecipeRow → String → Option Nat
  | [], _ => none
  | rec :: rest, code =>
      if rec.short_code = code then some rec.id else findByCode rest code

/-- ShortLinkRedirectView.get: redirect to the recipe id, or 404 (none)
when no recipe carries the code. -/
def resolveShortLink (db : DB) (code : String) : Option Nat :=
  findByCode db.recipes code

/-! ### Shopping list (api/views.py, RecipeViewSet.download_shopping_cart) -/

/-- A grouping key: (ingredient name, measurement unit name). -/
abbrev GroupKey := String × String

/-- The reverse lookup name ShoppingCart contributes on Recipe: Django
interpolates the related_name placeholder %(model_name)s declared on
BaseUserRecipeModel's foreign keys to the lowercased model class name,
giving shoppingcart, with no underscore. -/
def shoppingCartReverseName : String := "shoppingcart"

/-- The reverse lookup name Favorite contributes on Recipe, by the same
placeholder interpolation: favorite. -/
def favoriteReverseName : String := "favorite"

/-- The reverse lookup keyword written in
Recipe.objects.filter(shopping_cart__user=user) at the top of
download_shopping_cart. -/
def cartLookupKeyword : String := "shopping_cart"

/-- Errors raised by the queryset machinery itself. -/
inductive QueryError where
  | fieldError
deriving DecidableEq, Repr

/-- Resolution of a reverse user-recipe lookup keyword on Recipe: only the
interpolated reverse names resolve, each to a membership filter over its
relation table; any other keyword raises FieldError, as Django does for a
lookup it cannot resolve into a field. -/
def filterRecipesByRelation (db : DB) (keyword : String) (user : Nat) :
    Except QueryError (List RecipeRow) :=
  if keyword = shoppingCartReverseName then
    Except.ok (db.recipes.filter (fun rec => (user, rec.id) ∈ db.shoppingCart))
  else if keyword = favoriteReverseName then
    Except.ok (db.recipes.filter (fun rec => (user, rec.id) ∈ db.favorites))
  else
    Except.error QueryError.fieldError

/-- recipe.ingredient_relations.all(): the composition rows of one recipe. -/
def ingredientRelations (db : DB) (rid : Nat) : List RecipeIngredientRow :=
  db.recipeIngredients.filter (fun ri => ri.recipe = rid)

/-- ingredient.ingredient.name and ....measurement_unit.name: the grouping
key the loop builds for one composition row, following the two foreign keys. -/
def riKey (db : DB) (ri : RecipeIngredientRow) : GroupKey :=
  match db.ingredients.find? (fun i => i.id = ri.ingredient) with
  | some i =>
      (i.name,
        match db.units.find? (fun u => u.id = i.measurement_unit) with
        | some u => u.name
        | none => "")
  | none => ("", "")

/-- One step of the ingredient_totals dict update: add amt under key,
either bumping the existing entry or appending a new one (Python dicts
keep insertion order, modelled by an association list). -/
def addToTotals (totals : List (GroupKey × Int)) (key : GroupKey) (amt : Int) :
    List (GroupKey × Int) :=
  if key ∈ totals.map Prod.fst then
    totals.map (fun e => if e.1 = key then (e.1, e.2 + amt) else e)
  else
    totals ++ [(key, amt)]

/-- The line format of download_shopping_cart. -/
def formatLine (e : GroupKey × Int) : String :=
  e.1.1 ++ " (" ++ e.1.2 ++ ") — " ++ toString e.2

/-- The loop body of download_shopping_cart, given an already evaluated
recipes queryset: the nested loop over the recipes and their composition
rows builds the ingredient_totals dict (insertion-ordered), then one
formatted line per entry. -/
def buildShoppingLines (db : DB) (recipes : List RecipeRow) : List String :=
  (recipes.foldl
      (fun totals rec =>
        (ingredientRelations db rec.id).foldl
          (fun t ri => addToTotals t (riKey db ri) ri.amount) totals)
      []).map formatLine

/-- RecipeViewSet.download_shopping_cart: the recipes queryset is built with
the keyword shopping_cart, which has to resolve against Recipe's reverse
names (favorite and shoppingcart); only a resolved queryset reaches the
aggregation loop.  Because shopping_cart is not among the reverse names,
the filter raises FieldError first. -/
def downloadShoppingCart (db : DB) (user : Nat) :
    Except QueryError (List String) :=
  match filterRecipesByRelation db cartLookupKeyword user with
  | Except.error e => Except.error e
  | Except.ok recipes => Except.ok (buildShoppingLines db recipes)

/-! ### Write serializer validation (api/serializers.py, RecipeWriteSerializer) -/

/-- The writable fields of RecipeWriteSerializer.Meta.fields. -/
inductive Field where
  | name
  | text
  | tags
  | ingredients
  | image
  | cooking_time
deriving DecidableEq, Repr

/-- One entry of the ingredients list (RecipeIngredientWriteSerializer). -/
structure IngredientLine where
  id : Nat
  amount : Int
deriving DecidableEq, Repr

/-- The incoming payload: none in a field means the key is absent from the
request data. -/
structure RecipeInput where
  name : Option String
  text : Option String
  image : Option String
  cooking_time : Option Int
  tags : Option (List Nat)
  ingredients : Option (List IngredientLine)
deriving DecidableEq, Repr

def msgRequired : String := "Обязательное поле."

def msgDoesNotExist : String := "Объект не существует."

def msgMinValue : String := "Значение должно быть больше или равно 1."

def msgTagEmpty : String := "Нужен хотя бы один тег"

def msgTagDup : String := "Теги не должны повторяться"

def msgIngEmpty : String := "Нужен хотя бы один ингредиент"

def msgIngDup : String := "Ингредиенты не должны повторяться"

def msgTagsKey : String := "Поле \"tags\" обязательно для обновления."

def msgIngredientsKey : String := "Поле \"ingredients\" обязательно для обновления."

/-- Required-field check of a plain field: with partial update (isUpdate)
an absent key is tolerated by the base serializer, otherwise it is an error. -/
def requiredErrs (f : Field) (absent : Bool) (isUpdate : Bool) :
    List (Field × String) :=
  if absent ∧ ¬ isUpdate then [(f, msgRequired)] else []

/-- Field errors of tags: PrimaryKeyRelatedField existence first, then
validate_tags (non-empty, then no duplicates). -/
def tagsErrs (db : DB) : Option (List Nat) → List (Field × String)
  | none => []
  | some ts =>
      if ∃ t ∈ ts, t ∉ db.tags.map (fun tr => tr.id) then
        [(Field.tags, msgDoesNotExist)]
      else if ts = [] then
        [(Field.tags, msgTagEmpty)]
      else if ¬ ts.Nodup then
        [(Field.tags, msgTagDup)]
      else []

/-- Field errors of ingredients: per-line checks of
RecipeIngredientWriteSerializer (id existence, amount min_value=1) first,
then validate_ingredients (non-empty, then no duplicate ids). -/
def ingredientsErrs (db : DB) :
    Option (List IngredientLine) → List (Field × String)
  | none => []
  | some ings =>
      if ∃ l ∈ ings, l.id ∉ db.ingredients.map (fun i => i.id) then
        [(Field.ingredients, msgDoesNotExist)]
      else if ∃ l ∈ ings, l.amount < 1 then
        [(Field.ingredients, msgMinValue)]
      else if ings = [] then
        [(Field.ingredients, msgIngEmpty)]
      else if ¬ (ings.map (fun l => l.id)).Nodup then
        [(Field.ingredients, msgIngDup)]
      else []

/-- Field errors of cooking_time: required, then the MinValueValidator(1)
carried over from the model field. -/
def cookingTimeErrs : Option Int → Bool → List (Field × String)
  | none, isUpdate => if isUpdate then [] else [(Field.cooking_time, msgRequired)]
  | some ct, _ => if ct < 1 then [(Field.cooking_time, msgMinValue)] else []

/-- All field-scoped errors, collected in the declaration order of
Meta.fields, as the base to_internal_value does. -/
def fieldErrors (db : DB) (inp : RecipeInput) (isUpdate : Bool) :
    List (Field × String) :=
  requiredErrs Field.name inp.name.isNone isUpdate
    ++ requiredErrs Field.text inp.text.isNone isUpdate
    ++ tagsErrs db inp.tags
    ++ ingredientsErrs db inp.ingredients
    ++ requiredErrs Field.image inp.image.isNone isUpdate
    ++ cookingTimeErrs inp.cooking_time isUpdate

/-- RecipeWriteSerializer.to_internal_value followed by field validation:
the overridden key-presence checks for tags and then ingredients run first
and alone; only then are the per-field errors collected. -/
def runValidation (db : DB) (inp : RecipeInput) (isUpdate : Bool) :
    Except (List (Field × String)) (List Nat × List IngredientLine) :=
  match inp.tags with
  | none => Except.error [(Field.tags, msgTagsKey)]
  | some ts =>
      match inp.ingredients with
      | none => Except.error [(Field.ingredients, msgIngredientsKey)]
      | some ings =>
          let es := fieldErrors db inp isUpdate
          if es = [] then Except.ok (ts, ings) else Except.error es

/-! ### Create and update (api/views.py + api/serializers.py) -/

/-- Errors surfaced by the write endpoints: the serializer's field-scoped
ValidationError, or the ProtectedError raised by the storage layer. -/
inductive WriteError where
  | validation (errs : List (Field × String))
  | protectedError
deriving DecidableEq, Repr

/-- recipe.tags.set(tags): replace the tag links of one recipe. -/
def setRecipeTags (db : DB) (rid : Nat) (ts : List Nat) : DB :=
  { db with recipeTags :=
      db.recipeTags.filter (fun p => p.1 ≠ rid) ++ ts.map (fun t => (rid, t)) }

/-- RecipeWriteSerializer.create_ingredients: bulk-create the composition rows. -/
def createIngredients (db : DB) (rid : Nat) (ings : List IngredientLine) : DB :=
  { db with recipeIngredients :=
      db.recipeIngredients
        ++ ings.map (fun l =>
          { recipe := rid, ingredient := l.id, amount := l.amount }) }

/-- The id the storage layer hands to a newly inserted recipe row. -/
def newRecipeId (db : DB) : Nat :=
  db.recipes.foldl (fun m r => max m r.id) 0 + 1

/-- RecipeViewSet.create: is_valid(raise_exception=True) first (a validation
failure leaves the store untouched), then RecipeWriteSerializer.create:
Recipe.objects.create (which runs the short-code loop of Recipe.save on the
candidate stream gen), tags.set, create_ingredients.  none models the
short-code loop still spinning. -/
def createRecipe (db : DB) (author : Nat) (inp : RecipeInput)
    (gen : List String) : Option (DB × Option WriteError) :=
  match runValidation db inp false with
  | Except.error es => some (db, some (WriteError.validation es))
  | Except.ok (ts, ings) =>
      let rid := newRecipeId db
      let row : RecipeRow :=
        { id := rid, author := author, name := (inp.name).getD (""),
          text := (inp.text).getD (""), image := (inp.image).getD (""),
          cooking_time := (inp.cooking_time).getD 0, short_code := "" }
      match recipeSave db row gen with
      | none => none
      | some db1 =>
          some (createIngredients (setRecipeTags db1 rid ts) rid ings, none)

/-- The in-memory field assignments of RecipeWriteSerializer.update
(data.get with the instance value as default), persisted by instance.save. -/
def applyWritableFields (inp : RecipeInput) (r : RecipeRow) : RecipeRow :=
  { r with
    name := (inp.name).getD r.name,
    text := (inp.text).getD r.text,
    image := (inp.image).getD r.image,
    cooking_time := (inp.cooking_time).getD r.cooking_time }

/-- RecipeViewSet.update with partial=True, then RecipeWriteSerializer.update:
after tags.set, the statement instance.ingredients.all().delete() targets the
Ingredient catalog rows reachable through the m2m (not the RecipeIngredient
rows); deleting them is guarded by on_delete=PROTECT on
RecipeIngredient.ingredient, so the delete raises ProtectedError while any
composition row still references one of them. -/
def updateRecipe (db : DB) (rid : Nat) (inp : RecipeInput) :
    DB × Option WriteError :=
  match runValidation db inp true with
  | Except.error es => (db, some (WriteError.validation es))
  | Except.ok (ts, ings) =>
      let db1 := setRecipeTags db rid ts
      let linked :=
        (db1.recipeIngredients.filter (fun ri => ri.recipe = rid)).map
          (fun ri => ri.ingredient)
      if db1.recipeIngredients.any (fun ri => ri.ingredient ∈ linked) then
        (db1, some WriteError.protectedError)
      else
        let db2 :=
          { db1 with ingredients :=
              db1.ingredients.filter (fun i => i.id ∉ linked) }
        let db3 := createIngredients db2 rid ings
        let db4 :=
          { db3 with recipes :=
              db3.recipes.map (fun r =>
                if r.id = rid then applyWritableFields inp r else r) }
        (db4, none)

/-! ### Concrete stores used by the witnesses and counterexamples -/

/-- A small populated store used by the witnesses: two recipes with one
composition row each, two ingredient rows sharing one unit, one tag, cart
rows for user 0 and a favorite row of user 3. -/
def exDB2 : DB :=
  { units := [{ id := 1, name := "g" }],
    tags := [{ id := 1, name := "t", slug := "t" }],
    ingredients := [{ id := 1, name := "flour", measurement_unit := 1 },
                    { id := 2, name := "flour", measurement_unit := 1 }],
    recipes := [{ id := 1, author := 5, name := "r1", text := "d", image := "i",
                  cooking_time := 1, short_code := "aaa" },
                { id := 2, author := 5, name := "r2", text := "d", image := "i",
                  cooking_time := 1, short_code := "bbb" }],
    recipeTags := [(1, 1), (2, 1)],
    recipeIngredients := [{ recipe := 1, ingredient := 1, amount := 100 },
                          { recipe := 2, ingredient := 2, amount := 50 }],
    favorites := [(3, 1)],
    shoppingCart := [(0, 1), (0, 2)],
    subscriptions := [] }

/-- A store in which user 0 has a non-empty cart: its single cart recipe
has two composition rows, so the shopping-list contract expects lines. -/
def exDB8 : DB :=
  { units := [{ id := 1, name := "g" }],
    tags := [{ id := 1, name := "t", slug := "t" }],
    ingredients := [{ id := 1, name := "a", measurement_unit := 1 },
                    { id := 2, name := "b", measurement_unit := 1 }],
    recipes := [{ id := 1, author := 5, name := "r1", text := "d", image := "i",
                  cooking_time := 1, short_code := "aaa" }],
    recipeTags := [(1, 1)],
    recipeIngredients := [{ recipe := 1, ingredient := 2, amount := 1 },
                          { recipe := 1, ingredient := 1, amount := 1 }],
    favorites := [],
    shoppingCart := [(0, 1)],
    subscriptions := [] }

/-- A fully valid payload against exDB2. -/
def inpValid : RecipeInput :=
  { name := some "n", text := some "t", image := some "i",
    cooking_time := some 2, tags := some [1],
    ingredients := some [{ id := 1, amount := 2 }] }

/-- A payload violating cooking_time, the empty-tags rule and the
empty-ingredients rule at once. -/
def inpBad : RecipeInput :=
  { name := some "n", text := some "t", image := some "i",
    cooking_time := some 0, tags := some [], ingredients := some [] }

/-- A payload with a duplicated tag id, a duplicated ingredient id, and an
amount below 1. -/
def inpDup : RecipeInput :=
  { name := some "n", text := some "t", image := some "i",
    cooking_time := some 5, tags := some [1, 1],
    ingredients := some [{ id := 1, amount := 2 }, { id := 1, amount := 0 }] }

/-- A payload whose tags key is absent. -/
def inpNoTags : RecipeInput :=
  { name := some "n", text := some "t", image := some "i",
    cooking_time := some 1, tags := none,
    ingredients := some [{ id := 1, amount := 2 }] }

/-- A payload whose ingredients key is absent. -/
def inpNoIngs : RecipeInput :=
  { name := some "n", text := some "t", image := some "i",
    cooking_time := some 1, tags := some [1], ingredients := none }

/-- A fresh recipe row not yet saved (empty short code). -/
def exRow3 : RecipeRow :=
  { id := 3, author := 5, name := "r3", text := "d", image := "i",
    cooking_time := 1, short_code := "" }

/-- The member of the anonymous annotation of exDB2 used by a witness. -/
def exAnnotated : AnnotatedRecipe :=
  { recipe := { id := 1, author := 5, name := "r1", text := "d", image := "i",
                cooking_time := 1, short_code := "aaa" },
    is_favorited := false, is_in_shopping_cart := false }

/-! ### Lemmas about short codes -/

theorem pickCode_not_mem (used gen : List String) (c : String)
    (h : pickCode used gen = some c) : c ∉ used := by
  induction gen with
  | nil => simp [pickCode] at h
  | cons g gen ih =>
      unfold pickCode at h
      by_cases hg : g ∈ used
      · rw [if_pos hg] at h
        exact ih h
      · rw [if_neg hg] at h
        cases h
        exact hg

theorem pickCode_all_used (used gen : List String)
    (h : ∀ c ∈ gen, c ∈ used) : pickCode used gen = none := by
  induction gen with
  | nil => rfl
  | cons g gen ih =>
      unfold pickCode
      rw [if_pos (h g (by simp))]
      exact ih (fun x hx => h x (by simp [hx]))

theorem findByCode_eq_none (recipes : List RecipeRow) (code : String)
    (h : ∀ r ∈ recipes, r.short_code ≠ code) : findByCode recipes code = none := by
  induction recipes with
  | nil => rfl
  | cons r rest ih =>
      simp only [findByCode]
      rw [if_neg (h r (by simp))]
      exact ih (fun x hx => h x (by simp [hx]))

theorem findByCode_append_of_none (l1 l2 : List RecipeRow) (code : String)
    (h : findByCode l1 code = none) :
    findByCode (l1 ++ l2) code = findByCode l2 code := by
  induction l1 with
  | nil => rfl
  | cons r rest ih =>
      simp only [findByCode] at h
      by_cases hr : r.short_code = code
      · rw [if_pos hr] at h
        exact Option.noConfusion h
      · rw [if_neg hr] at h
        simp only [List.cons_append, findByCode, if_neg hr]
        exact ih h

/-! ### Claim theorems -/

/-- Claim C1: for the favorite and shopping-cart toggles, add fails with
Conflict (400) and leaves the relation unchanged when the pair is present,
and inserts exactly that pair when absent; remove fails with Conflict and
leaves the relation unchanged when the pair is absent, and deletes exactly
that pair when present. -/
theorem favorite_cart_toggle_contract (rel : List (Nat × Nat)) (u r : Nat)
    (e1 e2 : String) :
    ((u, r) ∈ rel →
        handleUserRecipeAction rel u r true e1 e2 =
          (ApiResponse.badRequest e1, rel))
    ∧ ((u, r) ∉ rel →
        handleUserRecipeAction rel u r true e1 e2 =
          (ApiResponse.created, rel ++ [(u, r)]))
    ∧ ((u, r) ∉ rel →
        handleUserRecipeAction rel u r false e1 e2 =
          (ApiResponse.badRequest e2, rel))
    ∧ ((u, r) ∈ rel →
        (handleUserRecipeAction rel u r false e1 e2).1 = ApiResponse.noContent
        ∧ (u, r) ∉ (handleUserRecipeAction rel u r false e1 e2).2
        ∧ ∀ p, p ≠ (u, r) →
            (p ∈ (handleUserRecipeAction rel u r false e1 e2).2 ↔ p ∈ rel)) := by
  refine ⟨fun h => ?_, fun h => ?_, fun h => ?_, fun h => ?_⟩
  · simp [handleUserRecipeAction, h]
  · simp [handleUserRecipeAction, h]
  · simp [handleUserRecipeAction, h]
  · refine ⟨by simp [handleUserRecipeAction, h], ?_, ?_⟩
    · simp [handleUserRecipeAction, h, List.mem_filter]
    · intro p hp
      simp [handleUserRecipeAction, h, List.mem_filter, hp]

/-- Witness for C1 at a concrete relation state. -/
theorem favorite_cart_toggle_contract_witness :
    handleUserRecipeAction [(0, 1)] 0 1 true errFavExists errFavNotExists
        = (ApiResponse.badRequest errFavExists, [(0, 1)])
    ∧ handleUserRecipeAction [(0, 1)] 0 2 true errFavExists errFavNotExists
        = (ApiResponse.created, [(0, 1), (0, 2)])
    ∧ handleUserRecipeAction [(0, 1)] 0 2 false errFavExists errFavNotExists
        = (ApiResponse.badRequest errFavNotExists, [(0, 1)])
    ∧ (handleUserRecipeAction [(0, 1)] 0 1 false errFavExists
        errFavNotExists).1 = ApiResponse.noContent :=
  ⟨(favorite_cart_toggle_contract [(0, 1)] 0 1 errFavExists errFavNotExists).1
      (by decide),
   (favorite_cart_toggle_contract [(0, 1)] 0 2 errFavExists errFavNotExists).2.1
      (by decide),
   (favorite_cart_toggle_contract [(0, 1)] 0 2 errFavExists
      errFavNotExists).2.2.1 (by decide),
   ((favorite_cart_toggle_contract [(0, 1)] 0 1 errFavExists
      errFavNotExists).2.2.2 (by decide)).1⟩

/-- Claim C7: the subscription toggle rejects add and remove with the
self-reference error before any membership operation, leaving the relation
unchanged whatever it contains; for distinct users it behaves exactly like
the favorite and cart toggles. -/
theorem subscription_toggle_contract (subs : List (Nat × Nat)) (u a : Nat)
    (isPost : Bool) :
    subscribe subs u u isPost = (ApiResponse.badRequest errSelfSubscribe, subs)
    ∧ (u ≠ a →
        subscribe subs u a isPost =
          handleUserRecipeAction subs u a isPost errSubExists errSubNotExists) := by
  constructor
  · simp [subscribe]
  · intro h
    simp [subscribe, handleUserRecipeAction, h]

/-- Witness for C7: self-subscription is rejected even when the pair is
already present, and a distinct pair follows the generic toggle. -/
theorem subscription_toggle_contract_witness :
    subscribe [(4, 4)] 4 4 true = (ApiResponse.badRequest errSelfSubscribe, [(4, 4)])
    ∧ subscribe [(4, 4)] 4 5 true =
        handleUserRecipeAction [(4, 4)] 4 5 true errSubExists errSubNotExists :=
  ⟨(subscription_toggle_contract [(4, 4)] 4 4 true).1,
   (subscription_toggle_contract [(4, 4)] 4 5 true).2 (by decide)⟩

/-- Claim C4: annotating for an anonymous viewer yields false for both
flags on every recipe, and the result does not depend on the favorite or
shopping-cart relation state at all (no membership lookup). -/
theorem anonymous_annotations (db : DB) (favs carts : List (Nat × Nat))
    (ar : AnnotatedRecipe) :
    (ar ∈ getQueryset db none →
        ar.is_favorited = false ∧ ar.is_in_shopping_cart = false)
    ∧ getQueryset { db with favorites := favs, shoppingCart := carts } none
        = getQueryset db none := by
  constructor
  · intro h
    unfold getQueryset at h
    obtain ⟨r, _, rfl⟩ := List.mem_map.mp h
    exact ⟨rfl, rfl⟩
  · rfl

/-- Witness for C4 at a store that does contain relation rows of other
users. -/
theorem anonymous_annotations_witness :
    (exAnnotated.is_favorited = false
      ∧ exAnnotated.is_in_shopping_cart = false)
    ∧ getQueryset { exDB2 with favorites := [(3, 1)], shoppingCart := [(3, 1)] }
        none = getQueryset exDB2 none :=
  ⟨(anonymous_annotations exDB2 [(3, 1)] [(3, 1)] exAnnotated).1 (by decide),
   (anonymous_annotations exDB2 [(3, 1)] [(3, 1)] exAnnotated).2⟩

/-- Claim C9 (code bug): the collision loop of Recipe.save is not bounded:
for every finite stream of colliding candidates the loop is still running,
so no finite retry count is enough and the claimed bounded-retry property
fails.  recipeSave returning none means the while-True loop has consumed the
whole modelled candidate stream without terminating. -/
theorem short_code_loop_unbounded (db : DB) (r : RecipeRow) (gen : List String)
    (hsc : r.short_code = "")
    (hcol : ∀ c ∈ gen, c ∈ db.recipes.map (fun rec => rec.short_code)) :
    recipeSave db r gen = none := by
  unfold recipeSave
  rw [if_pos hsc,
    pickCode_all_used (db.recipes.map (fun rec => rec.short_code)) gen hcol]

/-- Witness for C9: a concrete store whose two codes swallow any number of
colliding candidates. -/
theorem short_code_loop_unbounded_witness :
    recipeSave exDB2 exRow3 ["aaa", "bbb", "aaa", "bbb"] = none :=
  short_code_loop_unbounded exDB2 exRow3 ["aaa", "bbb", "aaa", "bbb"]
    (by decide) (by decide)

theorem filterRecipes_cart_keyword_error (db : DB) (user : Nat) :
    filterRecipesByRelation db cartLookupKeyword user =
      Except.error QueryError.fieldError := by
  unfold filterRecipesByRelation
  rw [if_neg (by decide), if_neg (by decide)]

/-- Claim C2 (code bug): download_shopping_cart builds its queryset with
the lookup keyword shopping_cart, but the reverse names Recipe carries for
the two relation models are favorite and shoppingcart (from related_name
with the model-name placeholder), so the lookup raises FieldError for every
user and every store: the aggregation loop never runs, no lines are ever
produced, and an empty cart yields an error rather than an empty
sequence. -/
theorem download_shopping_cart_field_error (db : DB) (user : Nat) :
    downloadShoppingCart db user = Except.error QueryError.fieldError := by
  unfold downloadShoppingCart
  rw [filterRecipes_cart_keyword_error]

/-- Claim C8 (code bug): even for a user whose cart is non-empty, the code
raises FieldError at the queryset and emits no lines at all, so the claimed
ascending-by-name ordering of shopping-list lines is never exhibited by the
program. -/
theorem shopping_list_no_ordered_lines :
    downloadShoppingCart exDB8 0 = Except.error QueryError.fieldError
    ∧ exDB8.shoppingCart.filter (fun p => p.1 = 0) ≠ [] := by
  constructor
  · unfold downloadShoppingCart
    rw [filterRecipes_cart_keyword_error]
  · decide

/-- Claim C5: saving a fresh recipe picks a code that no stored recipe
carries, and resolving that code finds exactly the new recipe (round trip);
resolving a code that no recipe carries is a 404. -/
theorem short_link_round_trip (db : DB) (r : RecipeRow) (gen : List String)
    (c code : String) :
    (r.short_code = "" →
        pickCode (db.recipes.map (fun rec => rec.short_code)) gen = some c →
        recipeSave db r gen =
            some { db with recipes := db.recipes ++ [{ r with short_code := c }] }
          ∧ resolveShortLink
              { db with recipes := db.recipes ++ [{ r with short_code := c }] } c
              = some r.id)
    ∧ (code ∉ db.recipes.map (fun rec => rec.short_code) →
        resolveShortLink db code = none) := by
  constructor
  · intro hsc hpick
    have hc : c ∉ db.recipes.map (fun rec => rec.short_code) :=
      pickCode_not_mem _ _ _ hpick
    have hnone : findByCode db.recipes c = none :=
      findByCode_eq_none _ _ (fun x hx he => hc (List.mem_map.mpr ⟨x, hx, he⟩))
    constructor
    · unfold recipeSave
      rw [if_pos hsc, hpick]
    · show findByCode (db.recipes ++ [{ r with short_code := c }]) c = some r.id
      rw [findByCode_append_of_none _ _ _ hnone]
      simp [findByCode]
  · intro hcode
    exact findByCode_eq_none _ _
      (fun x hx he => hcode (List.mem_map.mpr ⟨x, hx, he⟩))

/-- Witness for C5: saving a fresh recipe over exDB2 with candidate code
ccc, then resolving ccc, returns the new id 3; the unused code zzz is 404. -/
theorem short_link_round_trip_witness :
    recipeSave exDB2 exRow3 ["ccc"] =
        some { exDB2 with recipes :=
          exDB2.recipes ++ [{ exRow3 with short_code := "ccc" }] }
    ∧ resolveShortLink
        { exDB2 with recipes :=
          exDB2.recipes ++ [{ exRow3 with short_code := "ccc" }] } "ccc"
        = some 3
    ∧ resolveShortLink exDB2 ("zzz") = none := by
  have h := short_link_round_trip exDB2 exRow3 ["ccc"] "ccc" "zzz"
  have h1 := h.1 (by decide) (by decide)
  exact ⟨h1.1, h1.2, h.2 (by decide)⟩

/-! ### Lemmas about the field-error collection -/

theorem fieldErrors_mem_tags {db : DB} {inp : RecipeInput} {b : Bool}
    {x : Field × String} (hx : x ∈ tagsErrs db inp.tags) :
    x ∈ fieldErrors db inp b := by
  unfold fieldErrors
  simp only [List.mem_append]
  tauto

theorem fieldErrors_mem_ingredients {db : DB} {inp : RecipeInput} {b : Bool}
    {x : Field × String} (hx : x ∈ ingredientsErrs db inp.ingredients) :
    x ∈ fieldErrors db inp b := by
  unfold fieldErrors
  simp only [List.mem_append]
  tauto

theorem fieldErrors_mem_ct {db : DB} {inp : RecipeInput} {b : Bool}
    {x : Field × String} (hx : x ∈ cookingTimeErrs inp.cooking_time b) :
    x ∈ fieldErrors db inp b := by
  unfold fieldErrors
  simp only [List.mem_append]
  tauto

theorem tagsErrs_fst {db : DB} {ts : List Nat} {x : Field × String}
    (hx : x ∈ tagsErrs db (some ts)) : x.1 = Field.tags := by
  simp only [tagsErrs] at hx
  split_ifs at hx <;> simp only [List.mem_singleton, List.not_mem_nil] at hx
  · rw [hx]
  · rw [hx]
  · rw [hx]

theorem tagsErrs_ne_nil {db : DB} {ts : List Nat}
    (h : ts = [] ∨ ¬ ts.Nodup) : tagsErrs db (some ts) ≠ [] := by
  simp only [tagsErrs]
  split_ifs with h1 h2 h3
  · simp
  · simp
  · rcases h with h | h
    · exact absurd h h2
    · exact absurd h3 h
  · simp

theorem ingredientsErrs_fst {db : DB} {ings : List IngredientLine}
    {x : Field × String} (hx : x ∈ ingredientsErrs db (some ings)) :
    x.1 = Field.ingredients := by
  simp only [ingredientsErrs] at hx
  split_ifs at hx <;> simp only [List.mem_singleton, List.not_mem_nil] at hx
  · rw [hx]
  · rw [hx]
  · rw [hx]
  · rw [hx]

theorem ingredientsErrs_ne_nil {db : DB} {ings : List IngredientLine}
    (h : ings = [] ∨ ¬ (ings.map (fun l => l.id)).Nodup
      ∨ ∃ l ∈ ings, l.amount < 1) :
    ingredientsErrs db (some ings) ≠ [] := by
  simp only [ingredientsErrs]
  split_ifs with h1 h2 h3 h4
  · simp
  · simp
  · simp
  · rcases h with h | h | h
    · exact absurd h h3
    · exact absurd h4 h
    · exact absurd h h2
  · simp

/-- Claim C6: creation fails with a field-scoped ValidationError on
cooking_time below 1, an empty or duplicated tag list, an empty ingredient
list, duplicated ingredient ids or an amount below 1; on any validation
failure the store is returned unchanged, so no recipe row and no
composition rows are written. -/
theorem create_recipe_validation (db : DB) (author : Nat) (inp : RecipeInput)
    (gen : List String) (ct : Int) (ts : List Nat)
    (ings : List IngredientLine) (es : List (Field × String)) :
    (inp.cooking_time = some ct → ct < 1 →
        Field.cooking_time ∈ (fieldErrors db inp false).map Prod.fst)
    ∧ (inp.tags = some ts → (ts = [] ∨ ¬ ts.Nodup) →
        Field.tags ∈ (fieldErrors db inp false).map Prod.fst)
    ∧ (inp.ingredients = some ings →
        (ings = [] ∨ ¬ (ings.map (fun l => l.id)).Nodup
          ∨ ∃ l ∈ ings, l.amount < 1) →
        Field.ingredients ∈ (fieldErrors db inp false).map Prod.fst)
    ∧ (inp.tags = some ts → inp.ingredients = some ings →
        fieldErrors db inp false ≠ [] →
        runValidation db inp false = Except.error (fieldErrors db inp false))
    ∧ (runValidation db inp false = Except.error es →
        createRecipe db author inp gen = some (db, some (WriteError.validation es))) := by
  refine ⟨?_, ?_, ?_, ?_, ?_⟩
  · intro h1 h2
    refine List.mem_map.mpr ⟨(Field.cooking_time, msgMinValue),
      fieldErrors_mem_ct ?_, rfl⟩
    rw [h1]
    simp only [cookingTimeErrs]
    rw [if_pos h2]
    exact List.mem_singleton.mpr rfl
  · intro h1 h2
    obtain ⟨x, hx⟩ := List.exists_mem_of_ne_nil _ (tagsErrs_ne_nil h2)
    have hx2 : x ∈ tagsErrs db inp.tags := by
      rw [h1]
      exact hx
    exact List.mem_map.mpr ⟨x, fieldErrors_mem_tags hx2, tagsErrs_fst hx⟩
  · intro h1 h2
    obtain ⟨x, hx⟩ := List.exists_mem_of_ne_nil _ (ingredientsErrs_ne_nil h2)
    have hx2 : x ∈ ingredientsErrs db inp.ingredients := by
      rw [h1]
      exact hx
    exact List.mem_map.mpr
      ⟨x, fieldErrors_mem_ingredients hx2, ingredientsErrs_fst hx⟩
  · intro h1 h2 h3
    unfold runValidation
    rw [h1, h2]
    simp only []
    rw [if_neg h3]
  · intro h
    unfold createRecipe
    rw [h]

/-- Witness for C6 over exDB2: a payload violating cooking_time and the
emptiness rules, a payload with duplicated ids, and the unchanged-store
conclusion. -/
theorem create_recipe_validation_witness :
    Field.cooking_time ∈ (fieldErrors exDB2 inpBad false).map Prod.fst
    ∧ Field.tags ∈ (fieldErrors exDB2 inpBad false).map Prod.fst
    ∧ Field.ingredients ∈ (fieldErrors exDB2 inpBad false).map Prod.fst
    ∧ Field.tags ∈ (fieldErrors exDB2 inpDup false).map Prod.fst
    ∧ Field.ingredients ∈ (fieldErrors exDB2 inpDup false).map Prod.fst
    ∧ runValidation exDB2 inpBad false =
        Except.error (fieldErrors exDB2 inpBad false)
    ∧ createRecipe exDB2 7 inpBad ["ccc"] =
        some (exDB2, some (WriteError.validation (fieldErrors exDB2 inpBad false))) := by
  have h := create_recipe_validation exDB2 7 inpBad ["ccc"] 0 [] []
    (fieldErrors exDB2 inpBad false)
  have hdup := create_recipe_validation exDB2 7 inpDup ["ccc"] 5 [1, 1]
    [{ id := 1, amount := 2 }, { id := 1, amount := 0 }]
    (fieldErrors exDB2 inpDup false)
  have h4 := h.2.2.2.1 rfl rfl (by decide)
  exact ⟨h.1 rfl (by decide), h.2.1 rfl (Or.inl rfl),
    h.2.2.1 rfl (Or.inl rfl),
    hdup.2.1 rfl (Or.inr (by decide)),
    hdup.2.2.1 rfl (Or.inr (Or.inl (by decide))),
    h4, h.2.2.2.2 h4⟩

/-- Claim C3 (code bug): for any store in which the target recipe still has
at least one composition row, a validated update hits
instance.ingredients.all().delete(), which targets the Ingredient catalog
rows and is stopped by the PROTECT rule, so the whole update fails with
ProtectedError: the old RecipeIngredient rows are not replaced and the
catalog is unchanged. -/
theorem update_protected_error (db : DB) (rid : Nat) (inp : RecipeInput)
    (v : List Nat × List IngredientLine) (ri0 : RecipeIngredientRow)
    (hval : runValidation db inp true = Except.ok v)
    (hri : ri0 ∈ db.recipeIngredients) (hrec : ri0.recipe = rid) :
    (updateRecipe db rid inp).2 = some WriteError.protectedError
    ∧ (updateRecipe db rid inp).1.recipeIngredients = db.recipeIngredients
    ∧ (updateRecipe db rid inp).1.ingredients = db.ingredients := by
  obtain ⟨ts, ings⟩ := v
  have hmem : ri0.ingredient ∈
      (db.recipeIngredients.filter (fun ri => ri.recipe = rid)).map
        (fun ri => ri.ingredient) :=
    List.mem_map.mpr ⟨ri0, List.mem_filter.mpr ⟨hri, by simp [hrec]⟩, rfl⟩
  have hany : db.recipeIngredients.any
      (fun ri => ri.ingredient ∈
        (db.recipeIngredients.filter (fun ri => ri.recipe = rid)).map
          (fun ri => ri.ingredient)) = true :=
    List.any_eq_true.mpr ⟨ri0, hri, by simpa using hmem⟩
  unfold updateRecipe
  rw [hval]
  simp only [setRecipeTags]
  rw [if_pos hany]
  exact ⟨rfl, rfl, rfl⟩

/-- Witness for C3: updating recipe 1 of exDB2 with a valid payload fails
with ProtectedError and leaves the composition rows in place. -/
theorem update_protected_error_witness :
    (updateRecipe exDB2 1 inpValid).2 = some WriteError.protectedError
    ∧ (updateRecipe exDB2 1 inpValid).1.recipeIngredients =
        exDB2.recipeIngredients :=
  have h := update_protected_error exDB2 1 inpValid
    ([1], [{ id := 1, amount := 2 }])
    { recipe := 1, ingredient := 1, amount := 100 }
    (by rfl) (by decide) (by decide)
  ⟨h.1, h.2.1⟩

/-- Claim C10: any update payload missing the tags key, or missing the
ingredients key, is rejected by to_internal_value with a ValidationError
naming exactly that field, before any other validation, and the store is
returned unchanged: a partial update can never keep the old sets by simply
omitting them. -/
theorem update_missing_keys_rejected (db : DB) (rid : Nat) (inp : RecipeInput) :
    (inp.tags = none →
        runValidation db inp true = Except.error [(Field.tags, msgTagsKey)]
        ∧ updateRecipe db rid inp =
            (db, some (WriteError.validation [(Field.tags, msgTagsKey)])))
    ∧ (inp.tags ≠ none → inp.ingredients = none →
        runValidation db inp true =
            Except.error [(Field.ingredients, msgIngredientsKey)]
        ∧ updateRecipe db rid inp =
            (db, some (WriteError.validation
              [(Field.ingredients, msgIngredientsKey)]))) := by
  constructor
  · intro h
    have h1 : runValidation db inp true =
        Except.error [(Field.tags, msgTagsKey)] := by
      unfold runValidation
      rw [h]
    refine ⟨h1, ?_⟩
    unfold updateRecipe
    rw [h1]
  · intro ht hi
    obtain ⟨ts, hts⟩ := Option.ne_none_iff_exists'.mp ht
    have h1 : runValidation db inp true =
        Except.error [(Field.ingredients, msgIngredientsKey)] := by
      unfold runValidation
      rw [hts, hi]
    refine ⟨h1, ?_⟩
    unfold updateRecipe
    rw [h1]

/-- Witness for C10: payloads of each missing-key shape against exDB2. -/
theorem update_missing_keys_rejected_witness :
    runValidation exDB2 inpNoTags true =
        Except.error [(Field.tags, msgTagsKey)]
    ∧ updateRecipe exDB2 1 inpNoIngs =
        (exDB2, some (WriteError.validation
          [(Field.ingredients, msgIngredientsKey)])) :=
  ⟨((update_missing_keys_rejected exDB2 1 inpNoTags).1 rfl).1,
   ((update_missing_keys_rejected exDB2 1 inpNoIngs).2 (by decide) rfl).2⟩

end Foodgram
